import Mathlib

/-!
Verification of the tweet ingestion and interaction pipeline of the
gods-gen-image repository (packages/client-twitter and
packages/plugin-image-generation), shallowly embedded in Lean 4.

Conventions of the embedding:
* JavaScript strings are Lean `String`; `String.includes`, `toLowerCase`
  and `trim` are embedded below for the ASCII alphabet actually used by
  the code (handles, keywords, cache keys).
* Epoch timestamps are `Nat` (tweet timestamps in seconds, the
  initialization watermark in milliseconds) except in the post-rate
  model where `Int` mirrors JavaScript subtraction of clock values.
* A JS `Set<string>` is a duplicate-free-by-insertion `List String`.
* Fallible external collaborators (the image generator, the Twitter
  API) enter as explicit outcome parameters; a thrown exception is an
  explicit `Except`/`Bool` outcome, never a hidden effect.
-/

set_option autoImplicit false

/-! ## String primitives (JS `includes`, `toLowerCase`, `trim`, regexes) -/

/-- `charsStartWith pat cs`: `pat` is a prefix of `cs` (exact characters). -/
def charsStartWith : List Char → List Char → Bool
  | [], _ => true
  | _ :: _, [] => false
  | p :: ps, c :: cs => p == c && charsStartWith ps cs

/-- `charsContain needle hay`: `needle` occurs as a contiguous substring of
`hay`, the semantics of JavaScript `String.prototype.includes`. -/
def charsContain (needle : List Char) : List Char → Bool
  | [] => needle.isEmpty
  | c :: rest => charsStartWith needle (c :: rest) || charsContain needle rest

/-- JS `hay.includes(needle)`. -/
def strIncludes (hay needle : String) : Bool :=
  charsContain needle.data hay.data

/-- JS `s.toLowerCase()` (ASCII range, which covers every handle and
keyword the client compares). -/
def strToLower (s : String) : String :=
  String.mk (s.data.map Char.toLower)

/-- JS `s.trim()`: strip leading and trailing whitespace. -/
def strTrim (s : String) : String :=
  String.mk (((s.data.dropWhile Char.isWhitespace).reverse.dropWhile Char.isWhitespace).reverse)

/-- A JS `\w` word character: `[A-Za-z0-9_]`. -/
def isWordChar (c : Char) : Bool :=
  c.isAlphanum || c == '_'

/-- One left-to-right pass implementing JS `s.replace(/@\w+/g, '')`:
an `@` followed by at least one word character is dropped together with
the maximal word-character run after it. The flag records whether the
scanner is currently inside a mention being dropped. -/
def stripMentionsAux : Bool → List Char → List Char
  | _, [] => []
  | inW, c :: rest =>
    if inW && isWordChar c then
      stripMentionsAux true rest
    else if c == '@' && (match rest with | r :: _ => isWordChar r | [] => false) then
      stripMentionsAux true rest
    else
      c :: stripMentionsAux false rest

/-- JS `s.replace(/@\w+/g, '')`. -/
def stripMentions (s : String) : String :=
  String.mk (stripMentionsAux false s.data)

/-- Case-insensitive prefix test: `pat` (given lowercase) is a prefix of
`cs` once `cs` is lowercased. -/
def ciStartsWith : List Char → List Char → Bool
  | [], _ => true
  | _ :: _, [] => false
  | p :: ps, c :: cs => p == c.toLower && ciStartsWith ps cs

/-- Length of a match of the regex `/generate\s+image/i` anchored at the
head of `cs`, if any. -/
def genImageMatchLen (cs : List Char) : Option Nat :=
  if ciStartsWith "generate".data cs then
    let rest := cs.drop 8
    let ws := (rest.takeWhile Char.isWhitespace).length
    if decide (1 ≤ ws) && ciStartsWith "image".data (rest.drop ws) then
      some (8 + ws + 5)
    else none
  else none

/-- One left-to-right pass implementing JS
`s.replace(/generate\s+image/i, '')`: the first (leftmost) match is
removed, everything else is kept. -/
def removeGenImageAux : List Char → List Char
  | [] => []
  | c :: rest =>
    match genImageMatchLen (c :: rest) with
    | some n => (c :: rest).drop n
    | none => c :: removeGenImageAux rest

/-- JS `s.replace(/generate\s+image/i, '')`. -/
def removeGenImage (s : String) : String :=
  String.mk (removeGenImageAux s.data)

/-- JS falsiness of an optional numeric field: `undefined` or `0`. -/
def jsFalsyNat (o : Option Nat) : Bool :=
  o.getD 0 == 0

/-- JS falsiness of an optional string field: `undefined` or `""`. -/
def jsFalsyStr (o : Option String) : Bool :=
  o.getD "" == ""

/-! ## Data model: tweets and the dedupe state of `ClientBase` -/

/-- The fields of an incoming `Tweet` (agent-twitter-client) that the
pipeline reads; each may be absent, as the code's falsiness checks
acknowledge. `timestamp` is in epoch seconds. -/
structure IncomingTweet where
  id : Option String
  text : Option String
  username : Option String
  timestamp : Option Nat
  inReplyToStatusId : Option String
  deriving Repr, DecidableEq

/-- The mutable dedupe state of `ClientBase`
(packages/client-twitter/src/index.ts): the watermark
`initializationTime` (epoch ms, `Date.now()` at construction) and the
in-process `processedTweets : Set<string>`. -/
structure DedupeState where
  initializationTime : Nat
  processedTweets : List String
  deriving Repr, DecidableEq

/-- JS `Set.add`: insert if not present. -/
def DedupeState.addId (st : DedupeState) (id : String) : DedupeState :=
  { st with
    processedTweets :=
      if st.processedTweets.contains id then st.processedTweets
      else id :: st.processedTweets }

/-- The body of the filter callback in `ClientBase.fetchSearchTweets`
(index.ts lines 545-575), for a single tweet: reject when the timestamp
or id is missing, when the id is already processed, or when
`tweet.timestamp * 1000 < this.initializationTime`; otherwise add the id
to the set and accept. Returns the decision and the updated state. The
source body performs no durable-cache operation on any branch. -/
def filterStep (st : DedupeState) (t : IncomingTweet) : Bool × DedupeState :=
  if jsFalsyNat t.timestamp || jsFalsyStr t.id then
    (false, st)
  else if st.processedTweets.contains (t.id.getD "") then
    (false, st)
  else if (t.timestamp.getD 0) * 1000 < st.initializationTime then
    (false, st)
  else
    (true, st.addId (t.id.getD ""))

/-- `result.tweets.filter(...)` of `ClientBase.fetchSearchTweets`: the
callback runs left to right, threading the mutated `processedTweets`
set. Returns the accepted tweets (in fetch order) and the final state. -/
def fetchSearchTweetsFilter (st : DedupeState) : List IncomingTweet → List IncomingTweet × DedupeState
  | [] => ([], st)
  | t :: rest =>
    let out := filterStep st t
    let tail := fetchSearchTweetsFilter out.2 rest
    (if out.1 then t :: tail.1 else tail.1, tail.2)

/-! ## `ClientBase.handleTweetInteraction` (index.ts lines 1121-1210) -/

/-- How one call to `handleTweetInteraction` ends. -/
inductive InteractionOutcome where
  | skippedMissing
  | skippedStale
  | skippedProcessed
  | skippedNotMention
  | imageRequested
  | notImageRequest
  | errored
  deriving Repr, DecidableEq

/-- `ClientBase.handleTweetInteraction`. External inputs are explicit:
`nowMs` is `Date.now()` (used when the tweet has no timestamp),
`isOwnReply` the awaited result of `isOwnTweet` on `inReplyToStatusId`
(that helper catches internally and cannot throw), and
`downstreamThrows` whether the awaited image-generation work inside the
`try` block raises — the `catch` block then adds the id to
`processedTweets` (line 1208). -/
def handleTweetInteraction (cfgUsername : String) (st : DedupeState) (t : IncomingTweet)
    (nowMs : Nat) (isOwnReply : Bool) (downstreamThrows : Bool) :
    InteractionOutcome × DedupeState :=
  if jsFalsyStr t.id || jsFalsyStr t.text then
    (.skippedMissing, st)
  else
    let id := t.id.getD ""
    let text := t.text.getD ""
    let tweetTimestamp := if jsFalsyNat t.timestamp then nowMs else (t.timestamp.getD 0) * 1000
    if tweetTimestamp < st.initializationTime then
      (.skippedStale, st.addId id)
    else if st.processedTweets.contains id then
      (.skippedProcessed, st)
    else
      let isDirectMention := strIncludes (strToLower text) ("@" ++ strToLower cfgUsername)
      let isReplyToBot := !(jsFalsyStr t.inReplyToStatusId) && isOwnReply
      if !isDirectMention && !isReplyToBot then
        (.skippedNotMention, st.addId id)
      else
        let imagePrompt := strTrim (stripMentions text)
        let st1 := st.addId id
        if strIncludes (strToLower imagePrompt) "generate"
            && strIncludes (strToLower imagePrompt) "image" then
          if downstreamThrows then (.errored, st1.addId id)
          else (.imageRequested, st1)
        else
          (.notImageRequest, st1)

/-- Every key the twitter client ever writes to the durable cache: the
complete list of `runtime.cacheManager.set` call sites in index.ts
(lines 313, 891, 905, 913, 927, 940, 1020) and post.ts (line 259). -/
def clientCacheKeysWritten (username tweetId : String) : List String :=
  [ "twitter/tweets/" ++ tweetId,
    "twitter/" ++ username ++ "/latest_checked_tweet_id",
    "twitter/" ++ username ++ "/timeline",
    "twitter/" ++ username ++ "/mentions",
    "twitter/" ++ username ++ "/cookies",
    "twitter/" ++ username ++ "/profile",
    "twitter/" ++ username ++ "/lastPost" ]

/-! ## `RequestQueue` (types.ts lines 43-54), as a promise-chain model

A settled JS promise is its outcome. `RequestQueue.add` evaluates

  `this.queue = this.queue.then(() => fn()).then(resolve).catch(reject)`

so the denotation of one `add` maps the current chain promise and the
task closure to: the result delivered to the caller's promise, the new
chain promise, and whether `fn` was invoked at all (`.then` skips the
closure when the chain arrives rejected). The JS event loop runs the
chain strictly sequentially, which the list-of-steps model reflects. -/

/-- The settled outcome of a promise. -/
inductive PResult (α : Type) where
  | resolved (a : α)
  | rejected (e : String)
  deriving Repr, DecidableEq

/-- What one `RequestQueue.add` call produces. -/
structure AddOutcome (α : Type) where
  callerResult : PResult α
  newChain : PResult Unit
  ran : Bool
  deriving Repr, DecidableEq

namespace RequestQueue

/-- Denotation of `RequestQueue.add`: if the chain arrives resolved,
`fn` runs and its outcome is handed to the caller (`.then(resolve)` on
success, `.catch(reject)` on failure) while the chain promise settles
resolved either way; if the chain arrives rejected, `fn` never runs,
the caller inherits the rejection through `.catch(reject)`, and the
chain promise again settles resolved. -/
def add {α : Type} (chain : PResult Unit) (fn : Unit → PResult α) : AddOutcome α :=
  match chain with
  | .resolved _ =>
    match fn () with
    | .resolved v => ⟨.resolved v, .resolved (), true⟩
    | .rejected e => ⟨.rejected e, .resolved (), true⟩
  | .rejected e => ⟨.rejected e, .resolved (), false⟩

/-- Submit a list of identified tasks in order, starting from chain
state `chain`; returns the execution trace (ids whose closures actually
ran, in execution order) and each caller's settled result. -/
def runFrom {α : Type} (chain : PResult Unit) :
    List (Nat × (Unit → PResult α)) → List Nat × List (Nat × PResult α)
  | [] => ([], [])
  | (i, f) :: rest =>
    let out := add chain f
    let tail := runFrom out.newChain rest
    ((if out.ran then [i] else []) ++ tail.1, (i, out.callerResult) :: tail.2)

/-- Submit a list of identified tasks to a fresh queue
(`private queue: Promise<any> = Promise.resolve()`). -/
def run {α : Type} (tasks : List (Nat × (Unit → PResult α))) :
    List Nat × List (Nat × PResult α) :=
  runFrom (.resolved ()) tasks

end RequestQueue

/-! ## Image generation and the interaction loop (interactions.ts second
client variant, lines 489-685; index.ts lines 1052-1119) -/

/-- The shape `generateImage` resolves to
(plugin-image-generation/src/generator.ts): `success`, optional `data`
(array of image URLs or raw-data strings), and an `error` field the
client only logs. -/
structure ImageGenerationResult where
  success : Bool
  data : Option (List String)
  hasError : Bool
  deriving Repr, DecidableEq

/-- The attachment built on success (index.ts lines 1101-1105). -/
structure ImageAttachment where
  url : String
  mediaType : String
  description : String
  deriving Repr, DecidableEq

/-- `ClientBase.handleImageGenerationRequest` (index.ts lines
1052-1119). The call to the external collaborator enters as
`gen : Except String ImageGenerationResult`; `.error` is an awaited
rejection. Every throw inside the function body (empty prompt,
unsuccessful result, missing or empty data, empty first URL, rejected
await) is caught by the surrounding `catch`, which returns `null`. -/
def handleImageGenerationRequest (imagePrompt : String)
    (gen : Except String ImageGenerationResult) : Option ImageAttachment :=
  if strTrim imagePrompt == "" then none
  else
    match gen with
    | .error _ => none
    | .ok r =>
      if !r.success then none
      else
        match r.data with
        | none => none
        | some [] => none
        | some (u :: _) => if u == "" then none else some ⟨u, "image/png", imagePrompt⟩

/-- The client-side failure analysis: outcomes of the collaborator call
under which `handleImageGenerationRequest` cannot build an attachment —
a rejected await, an unsuccessful result, or a result carrying no
image. (Statement-side predicate, used to phrase the claims.) -/
def genFailed : Except String ImageGenerationResult → Bool
  | .error _ => true
  | .ok r => !r.success || r.data.getD [] == []

/-- What the per-tweet loop body posts. -/
inductive TweetAction where
  | imageReply (text url : String)
  | textReply (text : String)
  | noReply
  deriving Repr, DecidableEq

/-- `const cleanedText = tweet.text?.toLowerCase().trim() || ''`
(interactions.ts line 589). -/
def cleanedTweetText (t : IncomingTweet) : String :=
  match t.text with
  | none => ""
  | some s => strTrim (strToLower s)

/-- `cleanedText.includes('@' + username.toLowerCase())` — computed at
interactions.ts line 599 and only logged, never branched on. -/
def mentionsBot (username : String) (t : IncomingTweet) : Bool :=
  strIncludes (cleanedTweetText t) ("@" ++ strToLower username)

/-- The branch condition that decides whether the loop responds at all:
`containsGenerate && containsImage` (interactions.ts lines 590-591,
603). -/
def isImageRequestTweet (t : IncomingTweet) : Bool :=
  strIncludes (cleanedTweetText t) "generate" && strIncludes (cleanedTweetText t) "image"

/-- Reply text on successful generation (interactions.ts line 629). -/
def imageReplyText : String := "Here\x27s your generated image! 🎨"

/-- Reply text when generation fails (interactions.ts line 648). -/
def imageFailReplyText : String :=
  "Sorry, I couldn\x27t generate the image at this time. Please try again later."

/-- One iteration of the per-tweet loop body of
`TwitterInteractionClient.processTweets` (interactions.ts lines
579-673, second client variant): respond only when the cleaned text
contains both "generate" and "image"; then derive the prompt
(`replace(/@\w+/g,'').replace(/generate\s+image/i,'').trim()`), request
the image, and reply with the image on success or with the fixed
apology text when the attachment is missing or its URL empty. The
tweet-id falsiness guards (`if (tweet.id)`) are kept. -/
def processTweetStep (t : IncomingTweet)
    (gen : Except String ImageGenerationResult) : TweetAction :=
  if isImageRequestTweet t then
    let prompt :=
      match t.text with
      | none => ""
      | some s => strTrim (removeGenImage (stripMentions s))
    let attachment := handleImageGenerationRequest prompt gen
    match attachment with
    | some a =>
      if a.url != "" then
        if !(jsFalsyStr t.id) then .imageReply imageReplyText a.url else .noReply
      else
        if !(jsFalsyStr t.id) then .textReply imageFailReplyText else .noReply
    | none =>
      if !(jsFalsyStr t.id) then .textReply imageFailReplyText else .noReply
  else
    .noReply

/-! ## The classifier as the spec words it (spec section 4.4), for
comparison against `processTweetStep` -/

/-- Spec-side response plan. -/
inductive SpecAction where
  | respondImage
  | respondText
  | ignore
  deriving Repr, DecidableEq

/-- Modelled from the spec: the image-intent keyword pattern of spec
rule 4.4(1) — "generate"+"image", "draw", "picture",
"create"/"make"/"paint" + "image"/"picture" — over lowercased text. -/
def specImageIntent (lower : String) : Bool :=
  (strIncludes lower "generate" && strIncludes lower "image")
  || strIncludes lower "draw"
  || strIncludes lower "picture"
  || ((strIncludes lower "create" || strIncludes lower "make" || strIncludes lower "paint")
      && (strIncludes lower "image" || strIncludes lower "picture"))

/-- Modelled from the spec: the two-tier classifier of spec section 4.4
— (1) handle mention: image intent decides image vs text response;
(2) topic/trait keyword match: a fixed-probability gate (`roll < 20`
out of 100) decides respond vs ignore; (3) otherwise ignore. -/
def specClassify (handle : String) (keywords : List String) (roll : Nat)
    (text : String) : SpecAction :=
  let lower := strToLower text
  if strIncludes lower ("@" ++ strToLower handle) then
    if specImageIntent lower then .respondImage else .respondText
  else if keywords.any (fun k => strIncludes lower (strToLower k)) then
    if roll < 20 then .respondImage else .ignore
  else
    .ignore

/-! ## `TwitterPostClient.postTweet` rate floor (post.ts lines 126-232) -/

/-- The poster's in-process marker (`private lastPostTime: number = 0`). -/
structure PosterState where
  lastPostTime : Int
  deriving Repr, DecidableEq

/-- The instant the tweet is actually submitted to the platform:
`postTweet` computes `timeSinceLastPost = now - lastPostTime` and, when
it is under 2000 ms, awaits `setTimeout(2000 - timeSinceLastPost)`
before sending (post.ts lines 131-136). Clock values are `Int`,
mirroring JS number subtraction. -/
def submissionTime (st : PosterState) (reqTime : Int) : Int :=
  let timeSinceLastPost := reqTime - st.lastPostTime
  if timeSinceLastPost < 2000 then reqTime + (2000 - timeSinceLastPost) else reqTime

/-- How one `postTweet` call ends. -/
inductive PostResult where
  | rejectedEmptyText
  | dryRun (submitTime : Int)
  | posted (submitTime completionTime : Int)
  | failed (submitTime : Int)
  deriving Repr, DecidableEq

/-- `TwitterPostClient.postTweet`: throw on empty text (before the rate
delay); wait out the rate floor; in dry-run mode return without
posting; otherwise send through the platform client (`apiOk` states
whether the send and response parse succeed, `completionTime` is
`Date.now()` at post.ts line 221). Only a successful post updates
`lastPostTime` — a failure rethrows past that line. -/
def postTweet (st : PosterState) (text : String) (isDryRun : Bool)
    (reqTime : Int) (apiOk : Bool) (completionTime : Int) : PostResult × PosterState :=
  if text == "" then
    (.rejectedEmptyText, st)
  else
    let s := submissionTime st reqTime
    if isDryRun then (.dryRun s, st)
    else if apiOk then (.posted s completionTime, ⟨completionTime⟩)
    else (.failed s, st)

/-! ## Basic lemmas about the filter -/

theorem filterStep_initializationTime (st : DedupeState) (t : IncomingTweet) :
    (filterStep st t).2.initializationTime = st.initializationTime := by
  unfold filterStep DedupeState.addId
  split <;> [rfl; skip]
  split <;> [rfl; skip]
  split <;> rfl

theorem fetchSearchTweetsFilter_initializationTime (ts : List IncomingTweet) (st : DedupeState) :
    (fetchSearchTweetsFilter st ts).2.initializationTime = st.initializationTime := by
  induction ts generalizing st with
  | nil => rfl
  | cons t rest ih =>
    simp only [fetchSearchTweetsFilter]
    rw [ih]
    exact filterStep_initializationTime st t

theorem filterStep_mono (st : DedupeState) (t : IncomingTweet) (i : String)
    (h : st.processedTweets.contains i = true) :
    (filterStep st t).2.processedTweets.contains i = true := by
  unfold filterStep DedupeState.addId
  split
  · exact h
  · split
    · exact h
    · split
      · exact h
      · simp only [List.contains_cons, h, Bool.or_true]

theorem fetchSearchTweetsFilter_mono (ts : List IncomingTweet) (st : DedupeState) (i : String)
    (h : st.processedTweets.contains i = true) :
    (fetchSearchTweetsFilter st ts).2.processedTweets.contains i = true := by
  induction ts generalizing st with
  | nil => exact h
  | cons t rest ih =>
    simp only [fetchSearchTweetsFilter]
    exact ih _ (filterStep_mono st t i h)

theorem addId_contains_self (st : DedupeState) (i : String) :
    (st.addId i).processedTweets.contains i = true := by
  unfold DedupeState.addId
  split
  · assumption
  · simp

theorem addId_mono (st : DedupeState) (i j : String)
    (h : st.processedTweets.contains i = true) :
    (st.addId j).processedTweets.contains i = true := by
  unfold DedupeState.addId
  split
  · exact h
  · have hm : i ∈ st.processedTweets := by simpa using h
    simp [hm]

/-- `filterStep` either rejects and leaves the state untouched, or
accepts and records exactly the tweet's id in the in-process set. -/
theorem filterStep_cases (st : DedupeState) (t : IncomingTweet) :
    filterStep st t = (false, st)
    ∨ filterStep st t = (true, st.addId (t.id.getD "")) := by
  unfold filterStep
  split
  · exact Or.inl rfl
  · split
    · exact Or.inl rfl
    · split
      · exact Or.inl rfl
      · exact Or.inr rfl

theorem filterStep_accept_not_stale (st : DedupeState) (t : IncomingTweet)
    (h : (filterStep st t).1 = true) :
    ¬ ((t.timestamp.getD 0) * 1000 < st.initializationTime) := by
  unfold filterStep at h
  split at h
  · simp at h
  · split at h
    · simp at h
    · split at h
      · simp at h
      · assumption

theorem filterStep_accept_not_processed (st : DedupeState) (t : IncomingTweet)
    (h : (filterStep st t).1 = true) :
    st.processedTweets.contains (t.id.getD "") = false := by
  unfold filterStep at h
  split at h
  · simp at h
  · split at h
    · simp at h
    · rename_i hc
      simpa using hc

/-- Every tweet the filter accepts has its id in the state the filter
returns: acceptance marks before anything downstream can run. -/
theorem fetchSearchTweetsFilter_marks (ts : List IncomingTweet) (st : DedupeState) :
    ∀ t ∈ (fetchSearchTweetsFilter st ts).1,
      (fetchSearchTweetsFilter st ts).2.processedTweets.contains (t.id.getD "") = true := by
  induction ts generalizing st with
  | nil => intro t ht; simp [fetchSearchTweetsFilter] at ht
  | cons u rest ih =>
    intro t ht
    rcases filterStep_cases st u with hcase | hcase <;>
      simp only [fetchSearchTweetsFilter, hcase] at ht ⊢
    · exact ih st t ht
    · simp only [if_true] at ht
      rcases List.mem_cons.mp ht with rfl | hmem
      · exact fetchSearchTweetsFilter_mono rest _ _ (addId_contains_self st _)
      · exact ih _ t hmem

/-- A tweet older than the watermark is never in the filter's output,
whatever the processed set holds. -/
theorem fetchSearchTweetsFilter_stale_not_mem (ts : List IncomingTweet) (st : DedupeState)
    (t : IncomingTweet)
    (hstale : (t.timestamp.getD 0) * 1000 < st.initializationTime) :
    t ∉ (fetchSearchTweetsFilter st ts).1 := by
  induction ts generalizing st with
  | nil => simp [fetchSearchTweetsFilter]
  | cons u rest ih =>
    rcases filterStep_cases st u with hcase | hcase <;>
      simp only [fetchSearchTweetsFilter, hcase]
    · exact ih st hstale
    · simp only [if_true, List.mem_cons, not_or]
      constructor
      · intro heq
        subst heq
        have : (filterStep st t).1 = true := by rw [hcase]
        exact filterStep_accept_not_stale st t this hstale
      · have hinit : (st.addId (u.id.getD "")).initializationTime = st.initializationTime := rfl
        exact ih (st.addId (u.id.getD "")) (by rw [hinit]; exact hstale)

/-- A tweet whose id is already in the processed set is never in the
filter's output. -/
theorem fetchSearchTweetsFilter_processed_not_mem (ts : List IncomingTweet) (st : DedupeState)
    (t : IncomingTweet)
    (h : st.processedTweets.contains (t.id.getD "") = true) :
    t ∉ (fetchSearchTweetsFilter st ts).1 := by
  induction ts generalizing st with
  | nil => simp [fetchSearchTweetsFilter]
  | cons u rest ih =>
    rcases filterStep_cases st u with hcase | hcase <;>
      simp only [fetchSearchTweetsFilter, hcase]
    · exact ih st h
    · simp only [if_true, List.mem_cons, not_or]
      constructor
      · intro heq
        subst heq
        have hacc : (filterStep st t).1 = true := by rw [hcase]
        rw [filterStep_accept_not_processed st t hacc] at h
        exact Bool.false_ne_true h
      · exact ih (st.addId (u.id.getD "")) (addId_mono st _ _ h)

/-- Except when the tweet has no id or no text, `handleTweetInteraction`
leaves the tweet's id in the processed set — every skip path, the image
path and the `catch` handler all add it (or it was already there). -/
theorem handleTweetInteraction_marks (cfg : String) (st : DedupeState) (t : IncomingTweet)
    (nowMs : Nat) (own thr : Bool) :
    handleTweetInteraction cfg st t nowMs own thr = (.skippedMissing, st)
    ∨ (handleTweetInteraction cfg st t nowMs own thr).2.processedTweets.contains
        (t.id.getD "") = true := by
  simp only [handleTweetInteraction]
  split
  · exact Or.inl rfl
  · refine Or.inr ?_
    repeat' split
    all_goals first
      | assumption
      | exact addId_contains_self st _
      | exact addId_mono _ _ _ (addId_contains_self st _)

/-- A stale tweet (timestamp present, `timestamp * 1000` below the
watermark) takes the early-skip path of `handleTweetInteraction`. -/
theorem handleTweetInteraction_stale (cfg : String) (st : DedupeState) (t : IncomingTweet)
    (nowMs : Nat) (own thr : Bool)
    (hid : jsFalsyStr t.id = false) (htext : jsFalsyStr t.text = false)
    (hts : jsFalsyNat t.timestamp = false)
    (hstale : (t.timestamp.getD 0) * 1000 < st.initializationTime) :
    handleTweetInteraction cfg st t nowMs own thr = (.skippedStale, st.addId (t.id.getD "")) := by
  simp [handleTweetInteraction, hid, htext, hts, hstale]

/-- Chain invariant of the `RequestQueue` promise chain: starting from
the initial resolved promise, every submitted closure runs, in
submission order, and each caller's promise settles to exactly its own
closure's outcome — `.catch(reject)` re-resolves the chain after every
task, failed or not. -/
theorem add_resolved {α : Type} (f : Unit → PResult α) :
    RequestQueue.add (.resolved ()) f = ⟨f (), .resolved (), true⟩ := by
  unfold RequestQueue.add
  cases hf : f () <;> simp [hf]

theorem runFrom_resolved {α : Type} (tasks : List (Nat × (Unit → PResult α))) :
    RequestQueue.runFrom (.resolved ()) tasks
      = (tasks.map Prod.fst, tasks.map (fun p => (p.1, p.2 ()))) := by
  induction tasks with
  | nil => rfl
  | cons p rest ih =>
    obtain ⟨i, f⟩ := p
    simp [RequestQueue.runFrom, add_resolved, ih]

theorem handleImageGenerationRequest_none (p : String)
    (gen : Except String ImageGenerationResult) (h : genFailed gen = true) :
    handleImageGenerationRequest p gen = none := by
  unfold handleImageGenerationRequest
  split
  · rfl
  · cases gen with
    | error e => rfl
    | ok r =>
      simp only [genFailed] at h
      by_cases hs : r.success = true
      · simp only [hs, Bool.not_true, Bool.false_or] at h
        cases hd : r.data with
        | none => simp [hs, hd]
        | some l =>
          rw [hd] at h
          simp only [Option.getD_some] at h
          have hl : l = [] := by simpa using h
          subst hl
          simp [hs, hd]
      · have hs' : r.success = false := by simpa using hs
        simp [hs']

/-- The per-tweet loop body posts nothing exactly when the cleaned text
lacks "generate"/"image" or the tweet has no usable id. -/
theorem processTweetStep_noReply_iff (t : IncomingTweet)
    (gen : Except String ImageGenerationResult) :
    processTweetStep t gen = .noReply ↔
      (isImageRequestTweet t = false ∨ jsFalsyStr t.id = true) := by
  unfold processTweetStep
  by_cases himg : isImageRequestTweet t = true
  · by_cases hid : jsFalsyStr t.id = true
    · simp only [himg, if_true]
      cases handleImageGenerationRequest _ gen with
      | none => simp [hid]
      | some a => simp [hid]
    · have hid' : jsFalsyStr t.id = false := by simpa using hid
      simp only [himg, if_true]
      cases handleImageGenerationRequest _ gen with
      | none => simp [hid', himg]
      | some a =>
        simp only [hid', himg]
        split <;> simp
  · have himg' : isImageRequestTweet t = false := by simpa using himg
    simp [himg']

/-! ## Claims C1-C3: dedupe persistence, staleness, idempotence -/

/-- C1 (counterexample). The claim says an accepted (marked processed)
tweet's id is also persisted to the durable cache under
`platform/<account>/processed/<id>`. In the source, the accept path of
`ClientBase.fetchSearchTweets` (index.ts lines 545-575) only executes
`this.processedTweets.add(tweet.id)` — its body contains no
`cacheManager` call — and no key the client ever writes (the eight
`cacheManager.set` call sites listed in `clientCacheKeysWritten`)
mentions `processed` at all. Concretely: the fresh tweet `42` is
accepted, the returned state records it only in the in-process set, and
no written cache key contains the substring "processed". -/
theorem acceptance_writes_no_processed_cache_key :
    (fetchSearchTweetsFilter ⟨1000, []⟩
        [⟨some "42", some "gm", some "alice", some 2, none⟩]).1
      = [⟨some "42", some "gm", some "alice", some 2, none⟩]
    ∧ (fetchSearchTweetsFilter ⟨1000, []⟩
        [⟨some "42", some "gm", some "alice", some 2, none⟩]).2
      = ⟨1000, ["42"]⟩
    ∧ (clientCacheKeysWritten "alice" "42").all
        (fun k => !(strIncludes k "processed")) = true := by
  decide

/-- C1 (amended). Marking a tweet processed touches only the in-process
set: the filter leaves the watermark unchanged, every accepted tweet's
id is in the set the filter returns, and (shown at the concrete account
in the counterexample) the durable cache receives no processed-id key.
There is no durable persistence of processed ids, so the spec's
fire-and-forget write and its logged-failure path do not exist. -/
theorem acceptance_recorded_only_in_memory (st : DedupeState) (ts : List IncomingTweet) :
    (fetchSearchTweetsFilter st ts).2.initializationTime = st.initializationTime
    ∧ (fetchSearchTweetsFilter st ts).1.all
        (fun u => (fetchSearchTweetsFilter st ts).2.processedTweets.contains (u.id.getD ""))
      = true := by
  refine ⟨fetchSearchTweetsFilter_initializationTime ts st, ?_⟩
  exact List.all_eq_true.mpr (fun u hu => fetchSearchTweetsFilter_marks ts st u hu)

/-- C2. Any tweet whose `timestamp * 1000` is strictly below the
initialization watermark is rejected by the dedupe check regardless of
the contents of the processed set: it never appears in the output of
the `fetchSearchTweets` filter (index.ts lines 558-575), and
`handleTweetInteraction` (index.ts lines 1127-1138) takes the
early-skip path for it, adding the id so it is never reprocessed. -/
theorem stale_items_always_rejected (st : DedupeState) (ts : List IncomingTweet)
    (t : IncomingTweet)
    (hstale : (t.timestamp.getD 0) * 1000 < st.initializationTime) :
    t ∉ (fetchSearchTweetsFilter st ts).1
    ∧ ∀ (cfg : String) (nowMs : Nat) (own thr : Bool),
        jsFalsyStr t.id = false → jsFalsyStr t.text = false →
        jsFalsyNat t.timestamp = false →
        handleTweetInteraction cfg st t nowMs own thr
          = (.skippedStale, st.addId (t.id.getD "")) := by
  refine ⟨fetchSearchTweetsFilter_stale_not_mem ts st t hstale, ?_⟩
  intro cfg nowMs own thr hid htext hts
  exact handleTweetInteraction_stale cfg st t nowMs own thr hid htext hts hstale

/-- C2 (witness): a tweet from second 2 against a watermark of 5000 ms,
with a non-empty processed set to exhibit "regardless of prior
processing state". -/
theorem stale_items_always_rejected_witness :
    ((⟨some "5", some "old news", some "bob", some 2, none⟩ : IncomingTweet).timestamp.getD 0)
        * 1000 < (⟨5000, ["5"]⟩ : DedupeState).initializationTime
    ∧ ((⟨some "5", some "old news", some "bob", some 2, none⟩ : IncomingTweet)
        ∉ (fetchSearchTweetsFilter ⟨5000, ["5"]⟩
            [⟨some "5", some "old news", some "bob", some 2, none⟩]).1
      ∧ ∀ (cfg : String) (nowMs : Nat) (own thr : Bool),
          jsFalsyStr (⟨some "5", some "old news", some "bob", some 2, none⟩ : IncomingTweet).id = false →
          jsFalsyStr (⟨some "5", some "old news", some "bob", some 2, none⟩ : IncomingTweet).text = false →
          jsFalsyNat (⟨some "5", some "old news", some "bob", some 2, none⟩ : IncomingTweet).timestamp = false →
          handleTweetInteraction cfg ⟨5000, ["5"]⟩
              ⟨some "5", some "old news", some "bob", some 2, none⟩ nowMs own thr
            = (.skippedStale,
               DedupeState.addId ⟨5000, ["5"]⟩
                 ((⟨some "5", some "old news", some "bob", some 2, none⟩ : IncomingTweet).id.getD ""))) :=
  ⟨by decide, stale_items_always_rejected ⟨5000, ["5"]⟩ _ _ (by decide)⟩

/-- C3. Once an id is in the in-process set it stays there (the set only
grows) and every subsequent dedupe check rejects any tweet carrying that
id; moreover, for a repeated identical poll fetch, every tweet accepted
by the first run is rejected by the second run on the same list. -/
theorem marked_ids_never_reprocessed (st : DedupeState) (ts ts2 : List IncomingTweet)
    (t : IncomingTweet) (i : String) (hi : t.id = some i)
    (hmem : st.processedTweets.contains i = true) :
    t ∉ (fetchSearchTweetsFilter st ts).1
    ∧ (fetchSearchTweetsFilter st ts).2.processedTweets.contains i = true
    ∧ ∀ u ∈ (fetchSearchTweetsFilter st ts2).1,
        u ∉ (fetchSearchTweetsFilter (fetchSearchTweetsFilter st ts2).2 ts2).1 := by
  refine ⟨?_, fetchSearchTweetsFilter_mono ts st i hmem, ?_⟩
  · exact fetchSearchTweetsFilter_processed_not_mem ts st t (by rw [hi]; exact hmem)
  · intro u hu
    exact fetchSearchTweetsFilter_processed_not_mem ts2 _ u
      (fetchSearchTweetsFilter_marks ts2 st u hu)

/-- C3 (witness): id "42" already processed; the same two-tweet batch is
fetched twice — "42" is never yielded, and the fresh "7" accepted by the
first run is rejected by the identical second run. -/
theorem marked_ids_never_reprocessed_witness :
    (⟨some "42", some "hey", some "bob", some 9, none⟩ : IncomingTweet).id = some "42"
    ∧ (⟨1000, ["42"]⟩ : DedupeState).processedTweets.contains "42" = true
    ∧ ((⟨some "42", some "hey", some "bob", some 9, none⟩ : IncomingTweet)
        ∉ (fetchSearchTweetsFilter ⟨1000, ["42"]⟩
            [⟨some "42", some "hey", some "bob", some 9, none⟩,
             ⟨some "7", some "yo", some "eve", some 9, none⟩]).1
      ∧ (fetchSearchTweetsFilter ⟨1000, ["42"]⟩
            [⟨some "42", some "hey", some "bob", some 9, none⟩,
             ⟨some "7", some "yo", some "eve", some 9, none⟩]).2.processedTweets.contains "42" = true
      ∧ ∀ u ∈ (fetchSearchTweetsFilter ⟨1000, ["42"]⟩
            [⟨some "42", some "hey", some "bob", some 9, none⟩,
             ⟨some "7", some "yo", some "eve", some 9, none⟩]).1,
          u ∉ (fetchSearchTweetsFilter
                (fetchSearchTweetsFilter ⟨1000, ["42"]⟩
                  [⟨some "42", some "hey", some "bob", some 9, none⟩,
                   ⟨some "7", some "yo", some "eve", some 9, none⟩]).2
                [⟨some "42", some "hey", some "bob", some 9, none⟩,
                 ⟨some "7", some "yo", some "eve", some 9, none⟩]).1) :=
  ⟨rfl, by decide,
   marked_ids_never_reprocessed ⟨1000, ["42"]⟩ _ _ _ "42" rfl (by decide)⟩

/-! ## Claims C4-C5: RequestQueue ordering and failure isolation -/

/-- C4. Tasks submitted to the `RequestQueue` execute in submission
order: the execution trace of any task list equals the submission list's
ids, so task `T1` submitted before `T2` begins (and, the chain being
strictly sequential, finishes) before `T2` begins, regardless of when
each task's input became ready; the chain model runs at most one task
at a time by construction, which is what the single promise chain of
`types.ts` lines 43-54 provides on the JS event loop. -/
theorem queue_runs_tasks_in_submission_order {α : Type}
    (tasks : List (Nat × (Unit → PResult α))) :
    (RequestQueue.run tasks).1 = tasks.map Prod.fst := by
  rw [RequestQueue.run, runFrom_resolved]

/-- C5. A failing task rejects only its own caller: every submission's
caller promise settles to exactly its own closure's outcome (so no
other caller sees the failure), the failing submission's caller receives
the rejection, and the execution trace still contains every submitted
task — those after the failure included — because `.catch(reject)`
re-resolves the chain. -/
theorem failing_task_rejects_only_its_caller {α : Type}
    (pre post : List (Nat × (Unit → PResult α))) (i : Nat)
    (f : Unit → PResult α) (e : String) (hf : f () = .rejected e) :
    (RequestQueue.run (pre ++ (i, f) :: post)).2
        = (pre ++ (i, f) :: post).map (fun p => (p.1, p.2 ()))
    ∧ (i, PResult.rejected e) ∈ (RequestQueue.run (pre ++ (i, f) :: post)).2
    ∧ (RequestQueue.run (pre ++ (i, f) :: post)).1
        = (pre ++ (i, f) :: post).map Prod.fst := by
  have h2 : (RequestQueue.run (pre ++ (i, f) :: post)).2
      = (pre ++ (i, f) :: post).map (fun p => (p.1, p.2 ())) := by
    rw [RequestQueue.run, runFrom_resolved]
  have h1 : (RequestQueue.run (pre ++ (i, f) :: post)).1
      = (pre ++ (i, f) :: post).map Prod.fst := by
    rw [RequestQueue.run, runFrom_resolved]
  refine ⟨h2, ?_, h1⟩
  rw [h2]
  have hmem : (i, f) ∈ pre ++ (i, f) :: post :=
    List.mem_append_right _ (List.mem_cons_self _ _)
  have hmap := List.mem_map_of_mem (fun p => (p.1, p.2 ())) hmem
  simpa [hf] using hmap

/-- C5 (witness): three tasks, the middle one failing; its caller gets
the rejection while tasks 1 and 3 run and resolve. -/
theorem failing_task_rejects_only_its_caller_witness :
    ((fun _ => (PResult.rejected "boom" : PResult Nat)) () = PResult.rejected "boom")
    ∧ (RequestQueue.run
        [((1 : Nat), (fun _ => PResult.resolved 10 : Unit → PResult Nat)),
         (2, fun _ => PResult.rejected "boom"),
         (3, fun _ => PResult.resolved 30)]).1 = [1, 2, 3]
    ∧ (RequestQueue.run
        [((1 : Nat), (fun _ => PResult.resolved 10 : Unit → PResult Nat)),
         (2, fun _ => PResult.rejected "boom"),
         (3, fun _ => PResult.resolved 30)]).2
      = [(1, PResult.resolved 10), (2, PResult.rejected "boom"), (3, PResult.resolved 30)] := by
  have h := failing_task_rejects_only_its_caller
    [((1 : Nat), (fun _ => PResult.resolved 10 : Unit → PResult Nat))]
    [((3 : Nat), (fun _ => PResult.resolved 30 : Unit → PResult Nat))]
    2 (fun _ => PResult.rejected "boom") "boom" rfl
  exact ⟨rfl, h.2.2.trans rfl, h.1.trans rfl⟩

/-! ## Claims C6-C8: classification and graceful degrade -/

/-- C6 (counterexample). The claim says every tweet containing the
agent's handle receives a response — `RESPOND_TEXT` when no image-intent
keyword matches. In the code the mention check (interactions.ts line
599) is only logged; the loop branches solely on
`containsGenerate && containsImage` (line 603). The tweet
"@agentbot hello" mentions the configured handle `agentbot`, the
spec-side classifier would answer `respondText`, yet the loop posts
nothing, even with a collaborator that would succeed. -/
theorem mention_without_image_keywords_ignored :
    mentionsBot "agentbot" ⟨some "7", some "@agentbot hello", some "bob", some 5, none⟩ = true
    ∧ processTweetStep ⟨some "7", some "@agentbot hello", some "bob", some 5, none⟩
        (.ok ⟨true, some ["http://img.png"], false⟩) = .noReply
    ∧ specClassify "agentbot" [] 0 "@agentbot hello" = .respondText := by
  decide

/-- C6 (amended). The loop replies if and only if the lowercased
trimmed text contains both "generate" and "image" (and the tweet has a
usable id) — mention or not; a mention without those two substrings gets
no reply rather than a text reply. The example
"@agentbot generate image of a cat" does contain both, so it
deterministically takes the image-response path, not subject to any
probability gate. -/
theorem reply_iff_generate_and_image (t : IncomingTweet)
    (gen : Except String ImageGenerationResult) :
    (processTweetStep t gen = .noReply
      ↔ (isImageRequestTweet t = false ∨ jsFalsyStr t.id = true))
    ∧ isImageRequestTweet
        ⟨some "1", some "@agentbot generate image of a cat", some "bob", some 5, none⟩
      = true :=
  ⟨processTweetStep_noReply_iff t gen, by decide⟩

/-- C7 (counterexample). The claim says non-mention tweets respond only
on a configured keyword match and then only behind a 20% probability
gate, with `IGNORE` otherwise. The code has no keyword list and no
probability gate: "generate image of a dog" mentions no handle and
(under a keyword configuration it does not match) the spec-side
classifier ignores it for any roll, yet the loop deterministically
replies — with the image on success and with the apology text on
failure. -/
theorem nonmention_reply_bypasses_probability_gate :
    mentionsBot "agentbot"
        ⟨some "9", some "generate image of a dog", some "bob", some 5, none⟩ = false
    ∧ specClassify "agentbot" ["crypto"] 0 "generate image of a dog" = .ignore
    ∧ specClassify "agentbot" ["crypto"] 99 "generate image of a dog" = .ignore
    ∧ processTweetStep ⟨some "9", some "generate image of a dog", some "bob", some 5, none⟩
        (.ok ⟨true, some ["http://img.png"], false⟩)
      = .imageReply imageReplyText "http://img.png"
    ∧ processTweetStep ⟨some "9", some "generate image of a dog", some "bob", some 5, none⟩
        (.error "provider down")
      = .textReply imageFailReplyText := by
  decide

/-- C7 (amended). For tweets that do not mention the handle, the
response decision is deterministic and keyword-free: the loop replies
exactly when the cleaned text contains both "generate" and "image" and
the tweet has a usable id; every other non-mention tweet gets no
reply. -/
theorem nonmention_reply_deterministic (handle : String) (t : IncomingTweet)
    (gen : Except String ImageGenerationResult)
    (hm : mentionsBot handle t = false) :
    processTweetStep t gen ≠ .noReply
      ↔ (isImageRequestTweet t = true ∧ jsFalsyStr t.id = false) := by
  rw [Ne, processTweetStep_noReply_iff]
  cases hx : isImageRequestTweet t <;> cases hy : jsFalsyStr t.id <;> simp

/-- C7 amended (witness). -/
theorem nonmention_reply_deterministic_witness :
    mentionsBot "agentbot"
        ⟨some "9", some "generate image of a dog", some "bob", some 5, none⟩ = false
    ∧ (processTweetStep ⟨some "9", some "generate image of a dog", some "bob", some 5, none⟩
          (.error "provider down") ≠ .noReply
        ↔ (isImageRequestTweet
              ⟨some "9", some "generate image of a dog", some "bob", some 5, none⟩ = true
           ∧ jsFalsyStr
              (⟨some "9", some "generate image of a dog", some "bob", some 5, none⟩
                : IncomingTweet).id = false)) :=
  ⟨by decide, nonmention_reply_deterministic "agentbot" _ _ (by decide)⟩

/-- C8. If the collaborator call fails in any way the client can observe
— the await rejects, `success` is false, or no image comes back — then
for an image-request tweet with a usable id the loop still replies: the
caught failure yields `null`, and the loop posts the fixed, non-empty
apology text with no image reference (`textReply` carries none). The
composition is a total function, so no exception escapes. -/
theorem failed_generation_degrades_to_text_reply (t : IncomingTweet)
    (gen : Except String ImageGenerationResult) (hfail : genFailed gen = true)
    (himg : isImageRequestTweet t = true) (hid : jsFalsyStr t.id = false) :
    processTweetStep t gen = .textReply imageFailReplyText
    ∧ imageFailReplyText ≠ "" := by
  refine ⟨?_, by decide⟩
  have hnone : ∀ p, handleImageGenerationRequest p gen = none :=
    fun p => handleImageGenerationRequest_none p gen hfail
  simp [processTweetStep, himg, hid, hnone]

/-- C8 (witness): an always-rejecting collaborator against an
image-request tweet. -/
theorem failed_generation_degrades_to_text_reply_witness :
    genFailed (.error "always down") = true
    ∧ isImageRequestTweet
        ⟨some "3", some "please generate image of a sunset", some "bob", some 5, none⟩ = true
    ∧ jsFalsyStr
        (⟨some "3", some "please generate image of a sunset", some "bob", some 5, none⟩
          : IncomingTweet).id = false
    ∧ (processTweetStep
          ⟨some "3", some "please generate image of a sunset", some "bob", some 5, none⟩
          (.error "always down") = .textReply imageFailReplyText
      ∧ imageFailReplyText ≠ "") :=
  ⟨rfl, by decide, by decide,
   failed_generation_degrades_to_text_reply _ _ rfl (by decide) (by decide)⟩

/-! ## Claim C9: minimum spacing between posts -/

/-- C9. Back-to-back posts are separated by at least 2000 ms between
submission instants: a first successful post completes at `c1` (at or
after its own submission) and updates `lastPostTime` to `c1`; the next
`postTweet` call, whenever requested, is delayed — never rejected, the
only throw before submission being the empty-text guard — so that its
submission instant is at least `c1 + 2000 ≥ s1 + 2000`; and the marker
is updated again exactly when the second post succeeds. -/
theorem consecutive_posts_spaced_two_seconds (st0 : PosterState) (txt1 txt2 : String)
    (t1 t2 c1 c2 : Int) (apiOk2 : Bool)
    (h1 : txt1 ≠ "") (h2 : txt2 ≠ "") (hc1 : submissionTime st0 t1 ≤ c1) :
    postTweet st0 txt1 false t1 true c1
      = (.posted (submissionTime st0 t1) c1, ⟨c1⟩)
    ∧ submissionTime ⟨c1⟩ t2 ≥ submissionTime st0 t1 + 2000
    ∧ postTweet ⟨c1⟩ txt2 false t2 apiOk2 c2
      = (if apiOk2 then (.posted (submissionTime ⟨c1⟩ t2) c2, ⟨c2⟩)
         else (.failed (submissionTime ⟨c1⟩ t2), ⟨c1⟩)) := by
  have hb1 : (txt1 == "") = false := by simp [h1]
  have hb2 : (txt2 == "") = false := by simp [h2]
  refine ⟨?_, ?_, ?_⟩
  · simp [postTweet, hb1]
  · generalize submissionTime st0 t1 = s1 at hc1 ⊢
    simp only [submissionTime, ge_iff_le]
    split <;> omega
  · cases apiOk2 <;> simp [postTweet, hb2]

/-- C9 (witness): a post completing at 5100 ms; a second post requested
100 ms later is submitted at 7100 ms, 2100 ms after the first's
submission at 5000 ms. -/
theorem consecutive_posts_spaced_two_seconds_witness :
    ("hello tweet" ≠ "") ∧ ("second tweet" ≠ "")
    ∧ submissionTime ⟨0⟩ 5000 ≤ 5100
    ∧ (postTweet ⟨0⟩ "hello tweet" false 5000 true 5100
        = (.posted (submissionTime ⟨0⟩ 5000) 5100, ⟨5100⟩)
      ∧ submissionTime ⟨5100⟩ 5200 ≥ submissionTime ⟨0⟩ 5000 + 2000
      ∧ postTweet ⟨5100⟩ "second tweet" false 5200 true 7200
        = (if true then (.posted (submissionTime ⟨5100⟩ 5200) 7200, ⟨7200⟩)
           else (.failed (submissionTime ⟨5100⟩ 5200), ⟨5100⟩))) :=
  ⟨by decide, by decide, by decide,
   consecutive_posts_spaced_two_seconds ⟨0⟩ "hello tweet" "second tweet"
     5000 5200 5100 7200 true (by decide) (by decide) (by decide)⟩

/-! ## Claim C10: mark-before-work and error-path marking -/

/-- C10. Marking precedes downstream work and covers failures: (a) the
state the poll filter returns already contains every accepted tweet's
id, so classification/response code — which only ever sees the filter's
output — runs strictly after marking; (b) when the handling of a tweet
throws downstream (outcome `errored`), the `catch` handler leaves the
id in the set; (c) consequently any later poll cycle, fed through the
same filter with that state, never yields a tweet with that id again —
the failed tweet is never retried in this process lifetime. -/
theorem processed_marking_prevents_refetch (cfg : String) (st : DedupeState)
    (t : IncomingTweet) (nowMs : Nat) (own : Bool)
    (ts ts2 : List IncomingTweet) (i : String) (hi : t.id = some i)
    (hout : (handleTweetInteraction cfg st t nowMs own true).1 = .errored) :
    ((fetchSearchTweetsFilter st ts).1.all
        (fun u => (fetchSearchTweetsFilter st ts).2.processedTweets.contains (u.id.getD ""))
      = true)
    ∧ (handleTweetInteraction cfg st t nowMs own true).2.processedTweets.contains i = true
    ∧ ∀ u ∈ ts2, u.id = some i →
        u ∉ (fetchSearchTweetsFilter (handleTweetInteraction cfg st t nowMs own true).2 ts2).1 := by
  have hmark : (handleTweetInteraction cfg st t nowMs own true).2.processedTweets.contains
      (t.id.getD "") = true := by
    rcases handleTweetInteraction_marks cfg st t nowMs own true with hcase | hcase
    · rw [hcase] at hout
      simp at hout
    · exact hcase
  have hmi : (handleTweetInteraction cfg st t nowMs own true).2.processedTweets.contains i
      = true := by
    rw [hi] at hmark
    exact hmark
  refine ⟨?_, hmi, ?_⟩
  · exact List.all_eq_true.mpr (fun u hu => fetchSearchTweetsFilter_marks ts st u hu)
  · intro u _ hid2
    exact fetchSearchTweetsFilter_processed_not_mem ts2 _ u (by rw [hid2]; exact hmi)

/-- C10 (witness): the mention "@agentbot generate image of x" whose
downstream image work throws; its id "42" is in the set afterwards and
an identical later fetch does not yield it. -/
theorem processed_marking_prevents_refetch_witness :
    (⟨some "42", some "@agentbot generate image of x", some "bob", some 2, none⟩
      : IncomingTweet).id = some "42"
    ∧ (handleTweetInteraction "agentbot" ⟨1000, []⟩
        ⟨some "42", some "@agentbot generate image of x", some "bob", some 2, none⟩
        5000 false true).1 = .errored
    ∧ (((fetchSearchTweetsFilter ⟨1000, []⟩
          [⟨some "42", some "@agentbot generate image of x", some "bob", some 2, none⟩]).1.all
          (fun u => (fetchSearchTweetsFilter ⟨1000, []⟩
            [⟨some "42", some "@agentbot generate image of x", some "bob", some 2, none⟩]).2.processedTweets.contains
              (u.id.getD "")) = true)
      ∧ (handleTweetInteraction "agentbot" ⟨1000, []⟩
          ⟨some "42", some "@agentbot generate image of x", some "bob", some 2, none⟩
          5000 false true).2.processedTweets.contains "42" = true
      ∧ ∀ u ∈ [(⟨some "42", some "@agentbot generate image of x", some "bob", some 2, none⟩
                : IncomingTweet)], u.id = some "42" →
          u ∉ (fetchSearchTweetsFilter
                (handleTweetInteraction "agentbot" ⟨1000, []⟩
                  ⟨some "42", some "@agentbot generate image of x", some "bob", some 2, none⟩
                  5000 false true).2
                [⟨some "42", some "@agentbot generate image of x", some "bob", some 2, none⟩]).1) :=
  ⟨rfl, by decide,
   processed_marking_prevents_refetch "agentbot" ⟨1000, []⟩ _ 5000 false _ _ "42" rfl (by decide)⟩
